import Mathlib

/-!
# Verification of `tikzmagic.py`

A shallow embedding of the `tikzmagic` IPython extension
(`src/tikzmagic.py`): the LaTeX template builder, the option parsing
performed by `TikzRunner.__init__`, the SVG size patch
`_fix_gnuplot_svg_size`, and the render pipeline
`TikzRunner.run` / `generate_plots` with its external effects
(subprocess outcomes, the scratch directory, published outputs)
modelled by an explicit `World` and an event trace.

Python string primitives (`str.strip`, `str.split`, `int()`) are
embedded as `py`-prefixed functions over `List Char`.
-/

namespace Tikzmagic

/-! ## Python string primitives -/

/-- Python `str.isspace` for the whitespace characters stripped by
`str.strip()` (ASCII range; the source never feeds it non-ASCII spacing). -/
def pyIsSpace (c : Char) : Bool :=
  c = ' ' || c = '\t' || c = '\n' || c = '\r' || c = '\x0b' || c = '\x0c'

/-- Strip characters satisfying `p` from both ends of a character list:
the core of Python `str.strip` / `str.strip(chars)`. -/
def stripList (p : Char → Bool) (l : List Char) : List Char :=
  ((l.dropWhile p).reverse.dropWhile p).reverse

/-- Python `s.strip()` (no argument: strip whitespace from both ends). -/
def pyStrip (s : String) : String :=
  ⟨stripList pyIsSpace s.data⟩

/-- Python `s.strip(chars)`: strip every leading and trailing character
that belongs to `cs`. -/
def pyStripChars (cs : List Char) (s : String) : String :=
  ⟨stripList (fun c => cs.contains c) s.data⟩

/-- The character set of the source's `strip("'\"")` calls. -/
def quoteChars : List Char := ['\'', '"']

/-- Python `s.split(sep)` for a one-character separator, on character
lists: splits at every occurrence, keeping empty pieces
(`"a,,b" → ["a","","b"]`, `"" → [""]`). -/
def splitCharList (sep : Char) : List Char → List (List Char)
  | [] => [[]]
  | c :: cs =>
    if c = sep then [] :: splitCharList sep cs
    else
      match splitCharList sep cs with
      | [] => [[c]]
      | piece :: rest => (c :: piece) :: rest

/-- Python `s.split(sep)` for a one-character separator. -/
def pySplitChar (sep : Char) (s : String) : List String :=
  (splitCharList sep s.data).map (fun l => ⟨l⟩)

/-- Embeds `split_csv_args` (src/tikzmagic.py:63-66):
`[name.strip() for name in arg_string.strip().split(',') if name.strip()]`. -/
def split_csv_args (arg_string : String) : List String :=
  ((pySplitChar ',' (pyStrip arg_string)).map pyStrip).filter
    (fun name => !name.isEmpty)

/-- Numeric value of a digit list (most significant first). -/
def digitsVal (l : List Char) : Nat :=
  l.foldl (fun acc c => 10 * acc + (c.toNat - '0'.toNat)) 0

/-- Python `int(s)` on a decimal string: surrounding whitespace is
ignored, an optional single leading `+`/`-` sign is allowed, and the
remainder must be a nonempty run of digits; anything else raises
`ValueError`, modelled as `none`. -/
def pyInt (s : String) : Option Int :=
  match (pyStrip s).data with
  | [] => none
  | '+' :: ds =>
    if !ds.isEmpty && ds.all Char.isDigit then some (digitsVal ds) else none
  | '-' :: ds =>
    if !ds.isEmpty && ds.all Char.isDigit then some (-(digitsVal ds : Int)) else none
  | ds =>
    if ds.all Char.isDigit then some (digitsVal ds) else none

/-! ## MIME lookup (src/tikzmagic.py:51-60) -/

def _MIME_TYPES : List (String × String) :=
  [("png", "image/png"), ("svg", "image/svg+xml"),
   ("jpg", "image/jpeg"), ("jpeg", "image/jpeg")]

def get_mime_type (img_format : String) : String :=
  match _MIME_TYPES.find? (fun kv => kv.1 == img_format) with
  | some kv => kv.2
  | none => "image/" ++ img_format

/-! ## The render request (`TikzRunner.__init__`, src/tikzmagic.py:297-311) -/

/-- The state a `TikzRunner` holds after `__init__` succeeds.  `width`
and `height` come from `map(int, split_csv_args(size))`; `img_save_path`
is `None` (no save requested) or a path. -/
structure TikzRunner where
  code : String
  tikz_libraries : List String
  latex_packages : List String
  preamble : String
  width : Int
  height : Int
  scale : String
  plot_format : String
  encoding : String
  img_save_path : Option String
  dry_run : Bool
deriving Repr, DecidableEq

/-- Embeds `TikzRunner.__init__`: `self.width, self.height =
map(int, split_csv_args(size))` unpacks exactly two components, each
parsed by `int()`; any other shape raises `ValueError`, modelled as
`none`.  The remaining fields are stored as given (libraries and
packages through `split_csv_args`). -/
def TikzRunner.init (code latex_packages tikz_libraries preamble size
    scale plot_format encoding : String) (img_save_path : Option String)
    (dry_run : Bool) : Option TikzRunner :=
  match split_csv_args size with
  | [w, h] => do
    let wi ← pyInt w
    let hi ← pyInt h
    some { code := code
           tikz_libraries := split_csv_args tikz_libraries
           latex_packages := split_csv_args latex_packages
           preamble := preamble
           width := wi
           height := hi
           scale := scale
           plot_format := plot_format
           encoding := encoding
           img_save_path := img_save_path
           dry_run := dry_run }
  | _ => none

/-! ## Template builder (`compile_tikz_template`, src/tikzmagic.py:329-365) -/

/-- The `add_params` string: `density=300,` for raster formats. -/
def TikzRunner.add_params (r : TikzRunner) : String :=
  if r.plot_format = "png" || r.plot_format = "jpg" || r.plot_format = "jpeg" then
    "density=300,"
  else ""

/-- Embeds `'%(add_params)ssize=%(width)sx%(height)s,outext=.png'`. -/
def TikzRunner.convert_args (r : TikzRunner) : String :=
  r.add_params ++ "size=" ++ toString r.width ++ "x" ++ toString r.height
    ++ ",outext=.png"

/-- The `\documentclass` line. -/
def TikzRunner.documentclassLine (r : TikzRunner) : String :=
  "\\documentclass[convert=\x7b" ++ r.convert_args ++ "\x7d,border=0pt]{standalone}"

/-- The `\usetikzlibrary{...}` line: libraries joined with commas. -/
def TikzRunner.tikzlibraryLine (r : TikzRunner) : String :=
  "\\usetikzlibrary\x7b" ++ String.intercalate "," r.tikz_libraries ++ "\x7d"

/-- The preamble as inserted: `self.preamble.strip("'\"")` (the
`is not None` guard in the source is always true here, the preamble
being a string). -/
def TikzRunner.strippedPreamble (r : TikzRunner) : String :=
  pyStripChars quoteChars r.preamble

/-- The user code block: `'\n'.join('    %s' % line.strip() for line in
self.code.split(os.linesep))`, with `os.linesep = '\n'` (POSIX). -/
def TikzRunner.codeLines (r : TikzRunner) : List String :=
  (pySplitChar '\n' r.code).map (fun line => "    " ++ pyStrip line)

/-- The `tex` list built by `compile_tikz_template`, element for
element (the `for` loop over packages becomes a `map`; two elements
contain an internal newline, exactly as in the source). -/
def TikzRunner.texParts (r : TikzRunner) : List String :=
  [r.documentclassLine, "\\usepackage{tikz}"]
  ++ r.latex_packages.map (fun pkg => "\\usepackage\x7b" ++ pkg ++ "\x7d")
  ++ [r.tikzlibraryLine, r.strippedPreamble,
      "\\begin{document}\n\\begin{tikzpicture}[scale=" ++ r.scale ++ "]",
      String.intercalate "\n" r.codeLines,
      "\\end{tikzpicture}\n\\end{document}"]

/-- Embeds `compile_tikz_template`: `'\n'.join(tex)`. -/
def TikzRunner.compile_tikz_template (r : TikzRunner) : String :=
  String.intercalate "\n" r.texParts

/-- The generated document, cut at every newline boundary (the two
multi-line `tex` elements contribute two lines each, the code block one
line per code line).  `compile_tikz_template_eq_docLines` shows joining
these with `"\n"` reproduces `compile_tikz_template`. -/
def TikzRunner.docLines (r : TikzRunner) : List String :=
  [r.documentclassLine, "\\usepackage{tikz}"]
  ++ r.latex_packages.map (fun pkg => "\\usepackage\x7b" ++ pkg ++ "\x7d")
  ++ [r.tikzlibraryLine, r.strippedPreamble,
      "\\begin{document}",
      "\\begin{tikzpicture}[scale=" ++ r.scale ++ "]"]
  ++ r.codeLines
  ++ ["\\end{tikzpicture}", "\\end{document}"]

/-! ## XML DOM model and `_fix_gnuplot_svg_size` (src/tikzmagic.py:171-194)

`xml.dom.minidom` is an external collaborator; an element is modelled
as a tag, an ordered attribute list, and opaque serialized children. -/

structure XmlElement where
  tag : String
  attrs : List (String × String)
  children : String
deriving Repr, DecidableEq

/-- Models `minidom` `getAttribute`: the attribute's value, or `""` if absent. -/
def XmlElement.getAttribute (e : XmlElement) (name : String) : String :=
  match e.attrs.find? (fun kv => kv.1 == name) with
  | some kv => kv.2
  | none => ""

/-- Models `minidom` `setAttribute`: overwrite an existing attribute in place,
else append a new one. -/
def XmlElement.setAttribute (e : XmlElement) (name value : String) : XmlElement :=
  if e.attrs.any (fun kv => kv.1 == name) then
    { e with attrs := e.attrs.map (fun kv => if kv.1 == name then (name, value) else kv) }
  else
    { e with attrs := e.attrs ++ [(name, value)] }

/-- Models `toxml` serialization of an element (attributes in stored order). -/
def XmlElement.toxml (e : XmlElement) : String :=
  "<" ++ e.tag
    ++ String.join (e.attrs.map (fun kv => " " ++ kv.1 ++ "=\"" ++ kv.2 ++ "\""))
    ++ ">" ++ e.children ++ "</" ++ e.tag ++ ">"

/-- Python exceptions that can escape the functions modelled here. -/
inductive PyError where
  /-- Python `ValueError` (tuple unpacking of the wrong number of elements). -/
  | valueError
  /-- Python `IOError` / `FileNotFoundError` (missing file). -/
  | fileError
  /-- Python `TypeError` (`'%d' %` applied to a string). -/
  | typeError
deriving Repr, DecidableEq

/-- Embeds `_fix_gnuplot_svg_size`, over the parsed document: the input is
`getElementsByTagName('svg')` of the SVG data.  `(svg,) = ...` demands
exactly one element, else `ValueError`.  With an explicit `size`, its
two integers are formatted with `'%dpx'`; without one, the viewBox
pieces are strings and `'%dpx' %` raises (`TypeError`), after the
unpacking of `viewbox[2:]` into two variables (`ValueError` unless the
viewBox splits into exactly four pieces). -/
def fix_gnuplot_svg_size (svgElements : List XmlElement)
    (size : Option (Int × Int)) : Except PyError XmlElement :=
  match svgElements with
  | [svg] =>
    let viewbox := pySplitChar ' ' (svg.getAttribute "viewBox")
    match size with
    | some (width, height) =>
      .ok ((svg.setAttribute "width" (toString width ++ "px")).setAttribute
        "height" (toString height ++ "px"))
    | none =>
      match viewbox.drop 2 with
      | [_, _] => .error .typeError
      | _ => .error .valueError
  | _ => .error .valueError

/-! ## Pipeline model (`run_latex`, `generate_plots`, `run`)

External effects — the scratch directory, subprocess exit codes, the
files the subprocesses leave behind, stderr prints and display
publications — are modelled by a `World` record (the environment's
behaviour for one request) and an `Event` trace the pipeline emits. -/

/-- The environment one render request runs against. -/
structure World where
  /-- Whether `subprocess.call("pdflatex ...")` launches (no `OSError`). -/
  latexLaunches : Bool
  /-- pdflatex's exit code, when it launches. -/
  latexExitCode : Int
  /-- Contents of `tikz.log` if that file exists after compilation. -/
  logContents : Option String
  /-- Contents of `tikz.<format>` if that file exists after conversion. -/
  imageBytes : Option String
  /-- Result of `minidom.parseString(image).getElementsByTagName('svg')` of
  `imageBytes`, when the format is svg. -/
  svgElements : List XmlElement
deriving Repr

/-- Observable actions of one request, in order. -/
inductive Event where
  /-- Step where `make_tempdir` creates the scratch directory. -/
  | mkTempdir
  /-- Step where `run_latex` writes `tikz.tex`. -/
  | writeTexFile (contents : String)
  /-- Invocation of `subprocess.call("pdflatex --shell-escape tikz.tex")`. -/
  | runPdflatex
  /-- Invocation of `convert tikz.png ... tikz.jpg` (raster converter). -/
  | convertPngToJpg
  /-- Invocation of `pdf2svg tikz.pdf tikz.svg`. -/
  | convertPdfToSvg
  /-- Step where `open(image_filename, 'rb')` succeeds and the bytes are read. -/
  | readImageFile (bytes : String)
  /-- A line printed to stderr. -/
  | printStderr (msg : String)
  /-- The dry-run `print(compiled_code)` to stdout. -/
  | printStdout (s : String)
  /-- Invocation of `publish_display_data` with the log as `text/plain`. -/
  | publishText (source : String) (payload : String)
  /-- Invocation of `publish_display_data` with an image payload and the `isolated`
  metadata flag used for svg. -/
  | publishImage (source : String) (mime : String) (payload : String)
      (isolated : Bool)
  /-- Invocation of `shutil.copy(image_filename, img_save_path)`. -/
  | saveCopy (dst : String)
  /-- Step where `shutil.rmtree` removes the scratch directory. -/
  | rmTempdir
deriving Repr, DecidableEq

/-- Embeds `_convert_tikz_latex` (src/tikzmagic.py:105-128): true iff the
compiler launched and exited 0; both failure modes print to stderr. -/
def convertTikzLatexOk (w : World) : Bool :=
  w.latexLaunches && w.latexExitCode == 0

/-- The stderr prints of `_convert_tikz_latex`. -/
def convertTikzLatexEvents (w : World) : List Event :=
  if w.latexLaunches then
    if w.latexExitCode == 0 then []
    else [.printStderr "LaTeX terminated with signal"]
  else [.printStderr "LaTeX execution failed"]

/-- Embeds `_read_tikz_log` (src/tikzmagic.py:131-138): the log contents when
`tikz.log` exists, else `None` after printing to stderr. -/
def readTikzLog (w : World) : Option String × List Event :=
  match w.logContents with
  | some log => (some log, [])
  | none => (none, [.printStderr "No log file generated."])

/-- Embeds `run_latex` (src/tikzmagic.py:95-102): write `tikz.tex`, run the
compiler; on failure return the log (possibly `None`), on success
return `None`. -/
def run_latex (w : World) (code : String) : Option String × List Event :=
  let base : List Event := [.writeTexFile code, .runPdflatex]
  if convertTikzLatexOk w then
    (none, base ++ convertTikzLatexEvents w)
  else
    ((readTikzLog w).1, base ++ convertTikzLatexEvents w ++ (readTikzLog w).2)

/-- Python truthiness of `latex_log` in `generate_plots`: a string is
truthy iff nonempty; `None` is falsy. -/
def truthyStr : Option String → Bool
  | some s => !s.isEmpty
  | none => false

/-- Embeds `_convert_img_format` (src/tikzmagic.py:141-145): which converter
runs for the requested format (converter failures are only printed, so
the event is the whole observable behaviour). -/
def convertImgFormatEvents (plot_format : String) : List Event :=
  if plot_format = "jpg" || plot_format = "jpeg" then [.convertPngToJpg]
  else if plot_format = "svg" then [.convertPdfToSvg]
  else []

/-- Embeds `_publish_image` (src/tikzmagic.py:390-402): open and read
`tikz.<format>`; an `IOError` there is caught (print
`"No image generated."`, return `None`).  For svg the bytes pass
through `_fix_gnuplot_svg_size` with `size=(self.width, self.height)`
— whose `ValueError` is NOT caught and escapes.  Returns the
`{mime: payload}` entry as `some (mime, payload)`. -/
def TikzRunner.publishImagePart (r : TikzRunner) (w : World) :
    Except PyError (Option (String × String)) × List Event :=
  match w.imageBytes with
  | none => (.ok none, [.printStderr "No image generated."])
  | some bytes =>
    let plot_mime_type := get_mime_type r.plot_format
    if r.plot_format = "svg" then
      match fix_gnuplot_svg_size w.svgElements (some (r.width, r.height)) with
      | .ok svg => (.ok (some (plot_mime_type, svg.toxml)), [.readImageFile bytes])
      | .error e => (.error e, [.readImageFile bytes])
    else
      (.ok (some (plot_mime_type, bytes)), [.readImageFile bytes])

/-- Embeds `_save_if_requested` (src/tikzmagic.py:404-407): `shutil.copy` of
`tikz.<format>` to the save path; the copy raises an uncaught
`FileNotFoundError` when the source file is absent. -/
def TikzRunner.saveIfRequested (r : TikzRunner) (w : World) :
    Except PyError Unit × List Event :=
  match r.img_save_path with
  | none => (.ok (), [])
  | some dst =>
    match w.imageBytes with
    | none => (.error .fileError, [])
    | some _ => (.ok (), [.saveCopy dst])

/-- The body of the `with make_tempdir()` block of `generate_plots`
(src/tikzmagic.py:369-386): result is the `display_data` list, or the
first uncaught exception. -/
def TikzRunner.generatePlotsBody (r : TikzRunner) (w : World)
    (compiled_code : String) :
    Except PyError (List (String × String × String)) × List Event :=
  let latex_log := (run_latex w compiled_code).1
  let latexEvents := (run_latex w compiled_code).2
  if truthyStr latex_log then
    (.ok [], latexEvents ++ [.publishText "TikZMagic.Tikz" (latex_log.getD "")])
  else
    let convEvents := convertImgFormatEvents r.plot_format
    let imgRes := (r.publishImagePart w).1
    let imgEvents := (r.publishImagePart w).2
    match imgRes with
    | .error e => (.error e, latexEvents ++ convEvents ++ imgEvents)
    | .ok img =>
      let display_data :=
        match img with
        | some (mime, payload) => [("TikZMagic.Tikz", mime, payload)]
        | none => []
      let saveRes := (r.saveIfRequested w).1
      let saveEvents := (r.saveIfRequested w).2
      match saveRes with
      | .error e => (.error e, latexEvents ++ convEvents ++ imgEvents ++ saveEvents)
      | .ok _ => (.ok display_data,
          latexEvents ++ convEvents ++ imgEvents ++ saveEvents)

/-- Embeds `generate_plots` (src/tikzmagic.py:367-388): the body runs inside
`with make_tempdir()`, whose `finally` removes the directory on every
exit path, exceptional or not. -/
def TikzRunner.generate_plots (r : TikzRunner) (w : World)
    (compiled_code : String) :
    Except PyError (List (String × String × String)) × List Event :=
  ((r.generatePlotsBody w compiled_code).1,
    .mkTempdir :: (r.generatePlotsBody w compiled_code).2 ++ [.rmTempdir])

/-- Embeds `_run_and_display` (src/tikzmagic.py:320-327): publish each entry of
`display_data`, with `{'isolated': 'true'}` metadata exactly for svg. -/
def TikzRunner.runAndDisplay (r : TikzRunner) (w : World)
    (compiled_code : String) : Except PyError Unit × List Event :=
  match (r.generate_plots w compiled_code).1 with
  | .error e => (.error e, (r.generate_plots w compiled_code).2)
  | .ok display_data =>
    (.ok (), (r.generate_plots w compiled_code).2
      ++ display_data.map (fun entry =>
        .publishImage entry.1 entry.2.1 entry.2.2 (r.plot_format = "svg")))

/-- Embeds `TikzRunner.run` (src/tikzmagic.py:313-318): build the document;
dry run prints it, otherwise run the pipeline and display. -/
def TikzRunner.run (r : TikzRunner) (w : World) :
    Except PyError Unit × List Event :=
  let compiled_code := r.compile_tikz_template
  if r.dry_run then
    (.ok (), [.printStdout compiled_code])
  else
    r.runAndDisplay w compiled_code

/-! ## Basic lemmas -/

theorem intercalate_go_append (s : String) (as : List String) (acc₁ acc₂ : String) :
    String.intercalate.go (acc₁ ++ acc₂) s as
      = acc₁ ++ String.intercalate.go acc₂ s as := by
  induction as generalizing acc₂ with
  | nil => rfl
  | cons a as ih =>
    simp only [String.intercalate.go]
    rw [String.append_assoc acc₁ acc₂ s, String.append_assoc acc₁ (acc₂ ++ s) a,
      ih]

theorem intercalate_singleton (s a : String) :
    String.intercalate s [a] = a := rfl

theorem intercalate_cons_of_ne_nil (s a : String) {l : List String}
    (h : l ≠ []) :
    String.intercalate s (a :: l) = a ++ s ++ String.intercalate s l := by
  cases l with
  | nil => cases h rfl
  | cons b l =>
    simp only [String.intercalate, String.intercalate.go]
    exact intercalate_go_append s l (a ++ s) b

theorem intercalate_append_of_ne_nil (s : String) {xs ys : List String}
    (hx : xs ≠ []) (hy : ys ≠ []) :
    String.intercalate s (xs ++ ys)
      = String.intercalate s xs ++ s ++ String.intercalate s ys := by
  induction xs with
  | nil => cases hx rfl
  | cons a xs ih =>
    cases xs with
    | nil =>
      rw [List.singleton_append, intercalate_cons_of_ne_nil s a hy,
        intercalate_singleton]
    | cons c xs' =>
      rw [List.cons_append,
        intercalate_cons_of_ne_nil s a (by simp : c :: xs' ++ ys ≠ []),
        ih (by simp), intercalate_cons_of_ne_nil s a (by simp : c :: xs' ≠ [])]
      simp only [String.append_assoc]

theorem splitCharList_ne_nil (sep : Char) (l : List Char) :
    splitCharList sep l ≠ [] := by
  induction l with
  | nil => simp [splitCharList]
  | cons c cs ih =>
    rw [splitCharList]
    split
    · simp
    · split
      · simp
      · simp

theorem TikzRunner.codeLines_ne_nil (r : TikzRunner) : r.codeLines ≠ [] := by
  unfold TikzRunner.codeLines pySplitChar
  simp [splitCharList_ne_nil]

/-- Joining with `s` respects replacing a nonempty suffix list by
another with the same join, below a two-element prefix. -/
theorem intercalate_prefix_congr (s : String) (x y : String)
    (xs : List String) {Y Z : List String} (hY : Y ≠ []) (hZ : Z ≠ [])
    (h : String.intercalate s Y = String.intercalate s Z) :
    String.intercalate s (x :: y :: (xs ++ Y))
      = String.intercalate s (x :: y :: (xs ++ Z)) := by
  induction xs generalizing x y with
  | nil =>
    rw [List.nil_append, List.nil_append,
      intercalate_cons_of_ne_nil s x (by simp : y :: Y ≠ []),
      intercalate_cons_of_ne_nil s y hY, h,
      ← intercalate_cons_of_ne_nil s y hZ,
      ← intercalate_cons_of_ne_nil s x (by simp : y :: Z ≠ [])]
  | cons a xs ih =>
    rw [List.cons_append, List.cons_append,
      intercalate_cons_of_ne_nil s x (by simp [hY] : y :: a :: (xs ++ Y) ≠ []),
      intercalate_cons_of_ne_nil s x (by simp [hZ] : y :: a :: (xs ++ Z) ≠ []),
      ih y a]

/-- The joined suffix of the template, from the `\usetikzlibrary` line
on, cut at newline boundaries. -/
theorem intercalate_template_suffix (lib pre scale : String)
    (cls : List String) (hcls : cls ≠ []) :
    String.intercalate "\n"
      [lib, pre,
       "\\begin{document}\n\\begin{tikzpicture}[scale=" ++ scale ++ "]",
       String.intercalate "\n" cls,
       "\\end{tikzpicture}\n\\end{document}"]
    = String.intercalate "\n"
      ([lib, pre, "\\begin{document}",
        "\\begin{tikzpicture}[scale=" ++ scale ++ "]"]
       ++ (cls ++ ["\\end{tikzpicture}", "\\end{document}"])) := by
  have hbd : ("\\begin{document}\n\\begin{tikzpicture}[scale=" : String)
      = "\\begin{document}" ++ "\n" ++ "\\begin{tikzpicture}[scale=" := by decide
  have het : ("\\end{tikzpicture}\n\\end{document}" : String)
      = "\\end{tikzpicture}" ++ "\n" ++ "\\end{document}" := by decide
  rw [intercalate_cons_of_ne_nil "\n" lib
      (by simp : [pre,
        "\\begin{document}\n\\begin{tikzpicture}[scale=" ++ scale ++ "]",
        String.intercalate "\n" cls,
        "\\end{tikzpicture}\n\\end{document}"] ≠ []),
    intercalate_cons_of_ne_nil "\n" pre
      (by simp : ["\\begin{document}\n\\begin{tikzpicture}[scale="
          ++ scale ++ "]",
        String.intercalate "\n" cls,
        "\\end{tikzpicture}\n\\end{document}"] ≠ []),
    intercalate_cons_of_ne_nil "\n"
      ("\\begin{document}\n\\begin{tikzpicture}[scale=" ++ scale ++ "]")
      (by simp : [String.intercalate "\n" cls,
        "\\end{tikzpicture}\n\\end{document}"] ≠ []),
    intercalate_cons_of_ne_nil "\n" (String.intercalate "\n" cls)
      (by simp : (["\\end{tikzpicture}\n\\end{document}"] : List String) ≠ []),
    intercalate_singleton]
  rw [List.cons_append, List.cons_append, List.cons_append, List.cons_append,
    List.nil_append,
    intercalate_cons_of_ne_nil "\n" lib
      (by simp : pre :: "\\begin{document}"
        :: ("\\begin{tikzpicture}[scale=" ++ scale ++ "]")
        :: (cls ++ ["\\end{tikzpicture}", "\\end{document}"]) ≠ []),
    intercalate_cons_of_ne_nil "\n" pre
      (by simp : ("\\begin{document}" : String)
        :: ("\\begin{tikzpicture}[scale=" ++ scale ++ "]")
        :: (cls ++ ["\\end{tikzpicture}", "\\end{document}"]) ≠ []),
    intercalate_cons_of_ne_nil "\n" "\\begin{document}"
      (by simp : ("\\begin{tikzpicture}[scale=" ++ scale ++ "]")
        :: (cls ++ ["\\end{tikzpicture}", "\\end{document}"]) ≠ []),
    intercalate_cons_of_ne_nil "\n"
      ("\\begin{tikzpicture}[scale=" ++ scale ++ "]")
      (by simp : (cls ++ ["\\end{tikzpicture}", "\\end{document}"]) ≠ []),
    intercalate_append_of_ne_nil "\n" hcls
      (by simp : (["\\end{tikzpicture}", "\\end{document}"] : List String) ≠ []),
    intercalate_cons_of_ne_nil "\n" "\\end{tikzpicture}"
      (by simp : (["\\end{document}"] : List String) ≠ []),
    intercalate_singleton, hbd, het]
  simp only [String.append_assoc]

theorem splitCharList_of_not_mem {sep : Char} {l : List Char} (h : sep ∉ l) :
    splitCharList sep l = [l] := by
  induction l with
  | nil => rfl
  | cons c cs ih =>
    have hc : ¬ c = sep := fun hc => h (hc ▸ List.mem_cons_self c cs)
    have hcs : sep ∉ cs := fun hm => h (List.mem_cons_of_mem c hm)
    rw [splitCharList, if_neg hc, ih hcs]

theorem splitCharList_append_cons (sep : Char) {l₁ : List Char}
    (rest : List Char) (h : sep ∉ l₁) :
    splitCharList sep (l₁ ++ sep :: rest) = l₁ :: splitCharList sep rest := by
  induction l₁ with
  | nil => rw [List.nil_append, splitCharList, if_pos rfl]
  | cons c l₁ ih =>
    have hc : ¬ c = sep := fun hc => h (hc ▸ List.mem_cons_self c l₁)
    have hl : sep ∉ l₁ := fun hm => h (List.mem_cons_of_mem c hm)
    rw [List.cons_append, splitCharList, if_neg hc, ih hl]

/-- Splitting on newlines inverts joining with newlines, provided every
joined piece is newline-free. -/
theorem pySplitChar_intercalate {L : List String} (hL : L ≠ [])
    (h : ∀ x ∈ L, '\n' ∉ x.data) :
    pySplitChar '\n' (String.intercalate "\n" L) = L := by
  induction L with
  | nil => cases hL rfl
  | cons x L ih =>
    cases L with
    | nil =>
      rw [intercalate_singleton]
      unfold pySplitChar
      rw [splitCharList_of_not_mem (h x (List.mem_cons_self x []))]
      rfl
    | cons y t =>
      rw [intercalate_cons_of_ne_nil "\n" x (by simp : y :: t ≠ [])]
      unfold pySplitChar
      have hdata : (x ++ "\n" ++ String.intercalate "\n" (y :: t)).data
          = x.data ++ '\n' :: (String.intercalate "\n" (y :: t)).data := by
        simp
      rw [hdata,
        splitCharList_append_cons '\n' _ (h x (List.mem_cons_self x _))]
      have ih' := ih (by simp)
        (fun z hz => h z (List.mem_cons_of_mem x hz))
      unfold pySplitChar at ih'
      rw [List.map_cons, ih']

theorem TikzRunner.docLines_ne_nil (r : TikzRunner) : r.docLines ≠ [] := by
  unfold TikzRunner.docLines
  simp

/-- The lines of the generated document, as Python would produce them
by splitting on newlines. -/
def TikzRunner.documentLines (r : TikzRunner) : List String :=
  pySplitChar '\n' r.compile_tikz_template

/-- Tests whether `x` begins with the literal text `p` (Python `str.startswith`). -/
def lineStartsWith (p x : String) : Bool :=
  p.data.isPrefixOf x.data

theorem lineStartsWith_append_of_left (p x y : String)
    (h : lineStartsWith p x = true) : lineStartsWith p (x ++ y) = true := by
  unfold lineStartsWith at h ⊢
  rw [List.isPrefixOf_iff_prefix] at h ⊢
  rw [String.data_append]
  exact h.trans (List.prefix_append x.data y.data)

theorem lineStartsWith_append_false (p x y : String)
    (h₁ : lineStartsWith p x = false) (h₂ : lineStartsWith x p = false) :
    lineStartsWith p (x ++ y) = false := by
  unfold lineStartsWith at h₁ h₂ ⊢
  rw [← Bool.not_eq_true, List.isPrefixOf_iff_prefix] at h₁ h₂ ⊢
  rw [String.data_append]
  intro hpre
  rcases Nat.le_total p.data.length x.data.length with hle | hle
  · exact h₁ (List.prefix_of_prefix_length_le hpre
      (List.prefix_append x.data y.data) hle)
  · exact h₂ (List.prefix_of_prefix_length_le
      (List.prefix_append x.data y.data) hpre hle)

/-- The document string is exactly its line decomposition, joined with
newlines. -/
theorem TikzRunner.compile_tikz_template_eq_docLines (r : TikzRunner) :
    r.compile_tikz_template = String.intercalate "\n" r.docLines := by
  have hsuffix := intercalate_template_suffix r.tikzlibraryLine
    r.strippedPreamble r.scale r.codeLines r.codeLines_ne_nil
  unfold TikzRunner.compile_tikz_template TikzRunner.texParts TikzRunner.docLines
  simp only [List.append_assoc]
  exact intercalate_prefix_congr "\n" r.documentclassLine "\\usepackage{tikz}"
    (r.latex_packages.map (fun pkg => "\\usepackage\x7b" ++ pkg ++ "\x7d"))
    (by simp) (by simp) hsuffix

/-- When every element of `docLines` is newline-free, `docLines` is
exactly the document's line decomposition. -/
theorem TikzRunner.documentLines_eq_docLines (r : TikzRunner)
    (h : ∀ x ∈ r.docLines, '\n' ∉ x.data) :
    r.documentLines = r.docLines := by
  unfold TikzRunner.documentLines
  rw [r.compile_tikz_template_eq_docLines]
  exact pySplitChar_intercalate r.docLines_ne_nil h

/-! ## Claim theorems -/

/-- A concrete render request used to instantiate the claim theorems. -/
def sampleRunner : TikzRunner :=
  { code := "\\draw (0,0) rectangle (1,1);"
    tikz_libraries := []
    latex_packages := []
    preamble := ""
    width := 400
    height := 240
    scale := "1"
    plot_format := "png"
    encoding := "utf-8"
    img_save_path := none
    dry_run := false }

/-- Claim C9: for every list of requested TikZ libraries, including the
empty list, the generated document contains exactly one
`\usetikzlibrary{...}` line, whose argument is all requested libraries
joined with commas (empty when no libraries are requested).  Stated for
requests whose document lines are well formed (no embedded newline in
any line, and a preamble that does not itself begin with
`\usetikzlibrary`). -/
theorem usetikzlibrary_line_unique (r : TikzRunner)
    (hnl : ∀ x ∈ r.docLines, '\n' ∉ x.data)
    (hpre : lineStartsWith "\\usetikzlibrary" r.strippedPreamble = false) :
    r.documentLines.filter (fun l => lineStartsWith "\\usetikzlibrary" l)
      = ["\\usetikzlibrary\x7b"
          ++ String.intercalate "," r.tikz_libraries ++ "\x7d"] := by
  have hdc : lineStartsWith "\\usetikzlibrary" r.documentclassLine = false := by
    unfold TikzRunner.documentclassLine
    rw [String.append_assoc]
    exact lineStartsWith_append_false _ _ _ (by decide) (by decide)
  have hup : lineStartsWith "\\usetikzlibrary" "\\usepackage{tikz}" = false := by
    decide
  have hlib : lineStartsWith "\\usetikzlibrary" r.tikzlibraryLine = true := by
    unfold TikzRunner.tikzlibraryLine
    rw [String.append_assoc]
    exact lineStartsWith_append_of_left _ _ _ (by decide)
  have hbd : lineStartsWith "\\usetikzlibrary" "\\begin{document}" = false := by
    decide
  have hbt : lineStartsWith "\\usetikzlibrary"
      ("\\begin{tikzpicture}[scale=" ++ r.scale ++ "]") = false := by
    rw [String.append_assoc]
    exact lineStartsWith_append_false _ _ _ (by decide) (by decide)
  have het : lineStartsWith "\\usetikzlibrary" "\\end{tikzpicture}" = false := by
    decide
  have hed : lineStartsWith "\\usetikzlibrary" "\\end{document}" = false := by
    decide
  have hpkgs : (r.latex_packages.map
        (fun pkg => "\\usepackage\x7b" ++ pkg ++ "\x7d")).filter
        (fun l => lineStartsWith "\\usetikzlibrary" l) = [] := by
    rw [List.filter_eq_nil_iff]
    intro a ha
    rw [List.mem_map] at ha
    obtain ⟨pkg, _, rfl⟩ := ha
    rw [String.append_assoc]
    simp [lineStartsWith_append_false "\\usetikzlibrary" "\\usepackage\x7b"
      (pkg ++ "\x7d") (by decide) (by decide)]
  have hcls : r.codeLines.filter
        (fun l => lineStartsWith "\\usetikzlibrary" l) = [] := by
    rw [List.filter_eq_nil_iff]
    intro a ha
    unfold TikzRunner.codeLines at ha
    rw [List.mem_map] at ha
    obtain ⟨line, _, rfl⟩ := ha
    simp [lineStartsWith_append_false "\\usetikzlibrary" "    "
      (pyStrip line) (by decide) (by decide)]
  rw [r.documentLines_eq_docLines hnl]
  unfold TikzRunner.docLines
  simp [List.filter_append, List.filter_cons, hdc, hup, hlib, hbd, hbt, het,
    hed, hpre, hpkgs, hcls, TikzRunner.tikzlibraryLine]
  rw [String.append_assoc]
  exact lineStartsWith_append_of_left _ _ _ (by decide)

/-- Witness for `usetikzlibrary_line_unique` at `sampleRunner` (empty
library list). -/
theorem usetikzlibrary_line_unique_witness :
    (∀ x ∈ sampleRunner.docLines, '\n' ∉ x.data)
    ∧ lineStartsWith "\\usetikzlibrary" sampleRunner.strippedPreamble = false
    ∧ sampleRunner.documentLines.filter
        (fun l => lineStartsWith "\\usetikzlibrary" l)
      = ["\\usetikzlibrary\x7b"
          ++ String.intercalate "," sampleRunner.tikz_libraries ++ "\x7d"] :=
  ⟨by decide, by decide,
    usetikzlibrary_line_unique sampleRunner (by decide) (by decide)⟩

/-- A concrete render request with two packages. -/
def sampleRunnerPkgs : TikzRunner :=
  { sampleRunner with latex_packages := ["pgfplots", "textcomp"] }

/-- Claim C2, counterexample: at a request with an empty package list the
generated document still contains one `\usepackage` line (the fixed
`\usepackage{tikz}`), so the number of `\usepackage` lines is NOT the
length of the requested package list. -/
theorem usepackage_count_cex :
    (sampleRunner.documentLines.filter
        (fun l => lineStartsWith "\\usepackage" l)).length
      ≠ sampleRunner.latex_packages.length := by
  decide

/-- Claim C2, amended: the generated document contains the requested
package list's length PLUS ONE `\usepackage` lines: the fixed
`\usepackage{tikz}` first, then one line per requested package, in the
order given, with no deduplication.  Stated for requests whose document
lines are well formed (no embedded newlines; preamble not itself a
`\usepackage` line). -/
theorem usepackage_lines_count (r : TikzRunner)
    (hnl : ∀ x ∈ r.docLines, '\n' ∉ x.data)
    (hpre : lineStartsWith "\\usepackage" r.strippedPreamble = false) :
    r.documentLines.filter (fun l => lineStartsWith "\\usepackage" l)
      = "\\usepackage{tikz}"
        :: r.latex_packages.map (fun pkg => "\\usepackage\x7b" ++ pkg ++ "\x7d")
    ∧ (r.documentLines.filter
        (fun l => lineStartsWith "\\usepackage" l)).length
      = r.latex_packages.length + 1 := by
  have hdc : lineStartsWith "\\usepackage" r.documentclassLine = false := by
    unfold TikzRunner.documentclassLine
    rw [String.append_assoc]
    exact lineStartsWith_append_false _ _ _ (by decide) (by decide)
  have hup : lineStartsWith "\\usepackage" "\\usepackage{tikz}" = true := by
    decide
  have hlib : lineStartsWith "\\usepackage" r.tikzlibraryLine = false := by
    unfold TikzRunner.tikzlibraryLine
    rw [String.append_assoc]
    exact lineStartsWith_append_false _ _ _ (by decide) (by decide)
  have hbd : lineStartsWith "\\usepackage" "\\begin{document}" = false := by
    decide
  have hbt : lineStartsWith "\\usepackage"
      ("\\begin{tikzpicture}[scale=" ++ r.scale ++ "]") = false := by
    rw [String.append_assoc]
    exact lineStartsWith_append_false _ _ _ (by decide) (by decide)
  have het : lineStartsWith "\\usepackage" "\\end{tikzpicture}" = false := by
    decide
  have hed : lineStartsWith "\\usepackage" "\\end{document}" = false := by
    decide
  have hpkgs : (r.latex_packages.map
        (fun pkg => "\\usepackage\x7b" ++ pkg ++ "\x7d")).filter
        (fun l => lineStartsWith "\\usepackage" l)
      = r.latex_packages.map (fun pkg => "\\usepackage\x7b" ++ pkg ++ "\x7d") := by
    rw [List.filter_eq_self]
    intro a ha
    rw [List.mem_map] at ha
    obtain ⟨pkg, _, rfl⟩ := ha
    rw [String.append_assoc]
    simp [lineStartsWith_append_of_left "\\usepackage" "\\usepackage\x7b"
      (pkg ++ "\x7d") (by decide)]
  have hcls : r.codeLines.filter
        (fun l => lineStartsWith "\\usepackage" l) = [] := by
    rw [List.filter_eq_nil_iff]
    intro a ha
    unfold TikzRunner.codeLines at ha
    rw [List.mem_map] at ha
    obtain ⟨line, _, rfl⟩ := ha
    simp [lineStartsWith_append_false "\\usepackage" "    "
      (pyStrip line) (by decide) (by decide)]
  constructor
  · rw [r.documentLines_eq_docLines hnl]
    unfold TikzRunner.docLines
    simp [List.filter_append, List.filter_cons, hdc, hup, hlib, hbd, hbt,
      het, hed, hpre, hpkgs, hcls]
  · rw [r.documentLines_eq_docLines hnl]
    unfold TikzRunner.docLines
    simp [List.filter_append, List.filter_cons, hdc, hup, hlib, hbd, hbt,
      het, hed, hpre, hpkgs, hcls]

/-- Witness for `usepackage_lines_count` at `sampleRunnerPkgs`
(two requested packages, three `\usepackage` lines). -/
theorem usepackage_lines_count_witness :
    (∀ x ∈ sampleRunnerPkgs.docLines, '\n' ∉ x.data)
    ∧ lineStartsWith "\\usepackage" sampleRunnerPkgs.strippedPreamble = false
    ∧ ((sampleRunnerPkgs.documentLines.filter
          (fun l => lineStartsWith "\\usepackage" l)
        = "\\usepackage{tikz}"
          :: sampleRunnerPkgs.latex_packages.map
              (fun pkg => "\\usepackage\x7b" ++ pkg ++ "\x7d"))
      ∧ (sampleRunnerPkgs.documentLines.filter
          (fun l => lineStartsWith "\\usepackage" l)).length
        = sampleRunnerPkgs.latex_packages.length + 1) :=
  ⟨by decide, by decide,
    usepackage_lines_count sampleRunnerPkgs (by decide) (by decide)⟩

theorem intercalate_append_exists_prefix (s : String) (xs ys : List String)
    (hy : ys ≠ []) :
    ∃ p, String.intercalate s (xs ++ ys)
      = p ++ String.intercalate s ys := by
  cases xs with
  | nil => exact ⟨"", rfl⟩
  | cons a xs =>
    exact ⟨String.intercalate s (a :: xs) ++ s,
      intercalate_append_of_ne_nil s (by simp) hy⟩

/-- An environment where every external step succeeds. -/
def sampleWorldOk : World :=
  { latexLaunches := true
    latexExitCode := 0
    logContents := none
    imageBytes := some "IMAGE"
    svgElements := [] }

/-- Claim C7: with `dry_run`, `run` prints the generated document and does
nothing else, and that document embeds each line of the user code,
stripped of leading/trailing whitespace and indented by exactly 4
spaces, between `\begin{tikzpicture}[scale=<scale>]` and
`\end{tikzpicture}`. -/
theorem dry_run_embeds_indented_code (r : TikzRunner) (w : World)
    (hd : r.dry_run = true) :
    r.run w = (.ok (), [.printStdout r.compile_tikz_template])
    ∧ ∃ pre post, r.compile_tikz_template
        = pre ++ ("\\begin{tikzpicture}[scale=" ++ r.scale ++ "]") ++ "\n"
          ++ String.intercalate "\n"
              ((pySplitChar '\n' r.code).map
                (fun line => "    " ++ pyStrip line))
          ++ "\n" ++ "\\end{tikzpicture}" ++ post := by
  constructor
  · simp [TikzRunner.run, hd]
  · have h₀ : (List.map (fun line => "    " ++ pyStrip line)
        (pySplitChar '\n' r.code)) = r.codeLines := rfl
    rw [h₀, r.compile_tikz_template_eq_docLines]
    unfold TikzRunner.docLines
    have hY : ("\\begin{tikzpicture}[scale=" ++ r.scale ++ "]")
        :: (r.codeLines ++ ["\\end{tikzpicture}", "\\end{document}"]) ≠ [] := by
      simp
    obtain ⟨p₁, hp₁⟩ := intercalate_append_exists_prefix "\n"
      [r.documentclassLine, "\\usepackage{tikz}"]
      (r.latex_packages.map (fun pkg => "\\usepackage\x7b" ++ pkg ++ "\x7d")
        ++ ([r.tikzlibraryLine, r.strippedPreamble, "\\begin{document}",
             "\\begin{tikzpicture}[scale=" ++ r.scale ++ "]"]
            ++ (r.codeLines ++ ["\\end{tikzpicture}", "\\end{document}"])))
      (by simp)
    obtain ⟨p₂, hp₂⟩ := intercalate_append_exists_prefix "\n"
      (r.latex_packages.map (fun pkg => "\\usepackage\x7b" ++ pkg ++ "\x7d"))
      ([r.tikzlibraryLine, r.strippedPreamble, "\\begin{document}",
             "\\begin{tikzpicture}[scale=" ++ r.scale ++ "]"]
            ++ (r.codeLines ++ ["\\end{tikzpicture}", "\\end{document}"]))
      (by simp)
    obtain ⟨p₃, hp₃⟩ := intercalate_append_exists_prefix "\n"
      [r.tikzlibraryLine, r.strippedPreamble, "\\begin{document}"]
      (("\\begin{tikzpicture}[scale=" ++ r.scale ++ "]")
        :: (r.codeLines ++ ["\\end{tikzpicture}", "\\end{document}"]))
      hY
    have hp₃' : String.intercalate "\n"
        ([r.tikzlibraryLine, r.strippedPreamble, "\\begin{document}",
          "\\begin{tikzpicture}[scale=" ++ r.scale ++ "]"]
         ++ (r.codeLines ++ ["\\end{tikzpicture}", "\\end{document}"]))
        = p₃ ++ String.intercalate "\n"
            (("\\begin{tikzpicture}[scale=" ++ r.scale ++ "]")
              :: (r.codeLines ++ ["\\end{tikzpicture}", "\\end{document}"])) :=
      hp₃
    have hbt := intercalate_cons_of_ne_nil "\n"
      ("\\begin{tikzpicture}[scale=" ++ r.scale ++ "]")
      (by simp : r.codeLines ++ ["\\end{tikzpicture}", "\\end{document}"] ≠ [])
    have hcl := intercalate_append_of_ne_nil "\n" r.codeLines_ne_nil
      (by simp : (["\\end{tikzpicture}", "\\end{document}"] : List String) ≠ [])
    have hee : String.intercalate "\n" ["\\end{tikzpicture}", "\\end{document}"]
        = "\\end{tikzpicture}" ++ "\n" ++ "\\end{document}" := rfl
    refine ⟨p₁ ++ p₂ ++ p₃, "\n" ++ "\\end{document}", ?_⟩
    simp only [List.append_assoc]
    rw [hp₁, hp₂, hp₃', hbt, hcl, hee]
    simp [String.append_assoc]

/-- A dry-run variant of the sample request. -/
def sampleRunnerDry : TikzRunner := { sampleRunner with dry_run := true }

/-- Witness for `dry_run_embeds_indented_code` at `sampleRunnerDry`. -/
theorem dry_run_embeds_indented_code_witness :
    sampleRunnerDry.dry_run = true
    ∧ (sampleRunnerDry.run sampleWorldOk
        = (.ok (), [.printStdout sampleRunnerDry.compile_tikz_template])
      ∧ ∃ pre post, sampleRunnerDry.compile_tikz_template
          = pre ++ ("\\begin{tikzpicture}[scale="
              ++ sampleRunnerDry.scale ++ "]") ++ "\n"
            ++ String.intercalate "\n"
                ((pySplitChar '\n' sampleRunnerDry.code).map
                  (fun line => "    " ++ pyStrip line))
            ++ "\n" ++ "\\end{tikzpicture}" ++ post) :=
  ⟨by decide,
    dry_run_embeds_indented_code sampleRunnerDry sampleWorldOk (by decide)⟩

theorem dropWhile_head?_not (p : Char → Bool) (l : List Char) :
    ∀ c, (l.dropWhile p).head? = some c → p c = false := by
  induction l with
  | nil => intro c hc; cases hc
  | cons a l ih =>
    intro c hc
    rw [List.dropWhile_cons] at hc
    by_cases hpa : p a
    · rw [if_pos hpa] at hc
      exact ih c hc
    · rw [if_neg hpa] at hc
      cases hc
      exact Bool.of_not_eq_true hpa

theorem dropWhile_eq_self_of_head?_not (p : Char → Bool) (l : List Char)
    (h : ∀ c, l.head? = some c → p c = false) : l.dropWhile p = l := by
  cases l with
  | nil => rfl
  | cons a l =>
    rw [List.dropWhile_cons, if_neg]
    rw [h a rfl]
    simp

/-- Full characterization of two-sided stripping: the input splits as
stripped-prefix ++ result ++ stripped-suffix, the stripped parts satisfy
`p` throughout, and the result's two ends do not satisfy `p`. -/
theorem stripList_spec (p : Char → Bool) (l : List Char) :
    ∃ lead trail, (∀ c ∈ lead, p c = true) ∧ (∀ c ∈ trail, p c = true)
      ∧ l = lead ++ stripList p l ++ trail
      ∧ (∀ c, (stripList p l).head? = some c → p c = false)
      ∧ (∀ c, (stripList p l).getLast? = some c → p c = false) := by
  have hm : l.dropWhile p
      = stripList p l ++ ((l.dropWhile p).reverse.takeWhile p).reverse := by
    unfold stripList
    conv_lhs => rw [← List.reverse_reverse (l.dropWhile p),
      ← List.takeWhile_append_dropWhile (p := p)
        (l := (l.dropWhile p).reverse)]
    rw [List.reverse_append]
  refine ⟨l.takeWhile p, ((l.dropWhile p).reverse.takeWhile p).reverse,
    ?_, ?_, ?_, ?_, ?_⟩
  · intro c hc
    exact List.mem_takeWhile_imp hc
  · intro c hc
    rw [List.mem_reverse] at hc
    exact List.mem_takeWhile_imp hc
  · conv_lhs => rw [← List.takeWhile_append_dropWhile (p := p) (l := l), hm]
    rw [List.append_assoc]
  · intro c hc
    have h1 : (l.dropWhile p).head? = some c := by
      rw [hm, List.head?_append, hc]
      rfl
    exact dropWhile_head?_not p l c h1
  · intro c hc
    unfold stripList at hc
    rw [List.getLast?_reverse] at hc
    exact dropWhile_head?_not p (l.dropWhile p).reverse c hc

theorem stripList_eq_self (p : Char → Bool) (l : List Char)
    (h1 : ∀ c, l.head? = some c → p c = false)
    (h2 : ∀ c, l.getLast? = some c → p c = false) :
    stripList p l = l := by
  unfold stripList
  rw [dropWhile_eq_self_of_head?_not p l h1,
    dropWhile_eq_self_of_head?_not p l.reverse
      (fun c hc => h2 c (by rwa [List.head?_reverse] at hc)),
    List.reverse_reverse]

/-- The quote-stripping of C3 as worded: remove AT MOST ONE leading and
at most one trailing quote character.  Stated from the claim's words,
for comparison with the source's `strip("'\"")` behaviour. -/
def dropOneQuote : List Char → List Char
  | [] => []
  | c :: rest => if quoteChars.contains c then rest else c :: rest

/-- Remove at most one leading and at most one trailing quote. -/
def stripAtMostOneQuote (s : String) : String :=
  ⟨(dropOneQuote (dropOneQuote s.data).reverse).reverse⟩

/-- A request whose preamble is wrapped in doubled quotes. -/
def sampleRunnerQuotes : TikzRunner :=
  { sampleRunner with preamble := "''\\usepackage{x}''" }

/-- Claim C3, counterexample: on the preamble `''\usepackage{x}''` the
source's stripping removes BOTH leading and BOTH trailing quotes, not
at most one of each, so it differs from the claim's at-most-one
stripper. -/
theorem preamble_quote_strip_cex :
    sampleRunnerQuotes.strippedPreamble = "\\usepackage{x}"
    ∧ stripAtMostOneQuote sampleRunnerQuotes.preamble = "'\\usepackage{x}'"
    ∧ sampleRunnerQuotes.strippedPreamble
      ≠ stripAtMostOneQuote sampleRunnerQuotes.preamble := by
  refine ⟨by decide, by decide, by decide⟩

/-- Claim C3, amended: the quote-stripping applied before inserting the
preamble removes ALL leading and ALL trailing quote characters
(`'` or `"`): the preamble splits as quotes ++ inserted-text ++ quotes
with the inserted text's own ends unquoted; in particular a preamble
with no leading or trailing quote, such as `\usepackage{x}`, is
inserted unchanged. -/
theorem preamble_quote_strip_all (r : TikzRunner) :
    (∃ lead trail,
      (∀ c ∈ lead, quoteChars.contains c = true)
      ∧ (∀ c ∈ trail, quoteChars.contains c = true)
      ∧ r.preamble.data = lead ++ r.strippedPreamble.data ++ trail
      ∧ (∀ c, r.strippedPreamble.data.head? = some c →
          quoteChars.contains c = false)
      ∧ (∀ c, r.strippedPreamble.data.getLast? = some c →
          quoteChars.contains c = false))
    ∧ ((∀ c, r.preamble.data.head? = some c →
          quoteChars.contains c = false) →
       (∀ c, r.preamble.data.getLast? = some c →
          quoteChars.contains c = false) →
       r.strippedPreamble = r.preamble) := by
  constructor
  · exact stripList_spec (fun c => quoteChars.contains c) r.preamble.data
  · intro h1 h2
    show pyStripChars quoteChars r.preamble = r.preamble
    unfold pyStripChars
    rw [stripList_eq_self (fun c => quoteChars.contains c) r.preamble.data
      h1 h2]

/-- A request whose preamble carries no surrounding quotes. -/
def sampleRunnerPlainPreamble : TikzRunner :=
  { sampleRunner with preamble := "\\usepackage{x}" }

/-- Witness for `preamble_quote_strip_all`: an already-unquoted preamble
is inserted unchanged. -/
theorem preamble_quote_strip_all_witness :
    (∀ c, sampleRunnerPlainPreamble.preamble.data.head? = some c →
      quoteChars.contains c = false)
    ∧ (∀ c, sampleRunnerPlainPreamble.preamble.data.getLast? = some c →
      quoteChars.contains c = false)
    ∧ sampleRunnerPlainPreamble.strippedPreamble
      = sampleRunnerPlainPreamble.preamble :=
  ⟨by decide, by decide,
    (preamble_quote_strip_all sampleRunnerPlainPreamble).2
      (by decide) (by decide)⟩

/-- Claim C4, counterexample: a size option `"0,240"` constructs a
runner whose width is `0`, which is not positive — construction does
not enforce positivity. -/
theorem size_parse_positive_cex :
    (TikzRunner.init "\\draw;" "" "" "" "0,240" "1" "png" "utf-8"
        none false).map TikzRunner.width = some 0
    ∧ ¬ ((0 : Int) > 0) := ⟨by decide, by decide⟩

/-- Claim C4, amended: whenever construction from a size string succeeds,
the size string split into exactly two comma-separated components and
each parsed as an integer (Python `int()`), the first becoming the
width and the second the height; the integers need not be positive. -/
theorem size_parse_two_ints (code lp tl pre size scale fmt enc : String)
    (sp : Option String) (dr : Bool) (r : TikzRunner)
    (h : TikzRunner.init code lp tl pre size scale fmt enc sp dr = some r) :
    ∃ a b, split_csv_args size = [a, b]
      ∧ pyInt a = some r.width ∧ pyInt b = some r.height := by
  unfold TikzRunner.init at h
  rcases hsp : split_csv_args size with _ | ⟨a, _ | ⟨b, _ | _⟩⟩ <;>
    rw [hsp] at h
  · cases h
  · cases h
  · refine ⟨a, b, rfl, ?_⟩
    dsimp only at h
    cases ha : pyInt a with
    | none => rw [ha] at h; cases h
    | some wi =>
      cases hb : pyInt b with
      | none => rw [ha, hb] at h; cases h
      | some hi =>
        rw [ha, hb] at h
        cases h
        exact ⟨rfl, rfl⟩
  · cases h

/-- The runner produced by `TikzRunner.init` on size `"400,240"`. -/
def sampleInitRunner : TikzRunner :=
  { code := "\\draw;"
    tikz_libraries := []
    latex_packages := []
    preamble := ""
    width := 400
    height := 240
    scale := "1"
    plot_format := "svg"
    encoding := "utf-8"
    img_save_path := none
    dry_run := false }

/-- Witness for `size_parse_two_ints` at size `"400,240"`. -/
theorem size_parse_two_ints_witness :
    TikzRunner.init "\\draw;" "" "" "" "400,240" "1" "svg" "utf-8"
        none false = some sampleInitRunner
    ∧ ∃ a b, split_csv_args "400,240" = [a, b]
        ∧ pyInt a = some sampleInitRunner.width
        ∧ pyInt b = some sampleInitRunner.height :=
  ⟨by decide,
    size_parse_two_ints "\\draw;" "" "" "" "400,240" "1" "svg" "utf-8"
      none false sampleInitRunner (by decide)⟩

theorem find?_map_update_same (attrs : List (String × String)) (n v : String)
    (h : attrs.any (fun kv => kv.1 == n) = true) :
    (attrs.map (fun kv => if kv.1 == n then (n, v) else kv)).find?
        (fun kv => kv.1 == n) = some (n, v) := by
  induction attrs with
  | nil => cases h
  | cons kv attrs ih =>
    rw [List.any_cons, Bool.or_eq_true_iff] at h
    by_cases hkv : (kv.1 == n) = true
    · rw [List.map_cons, if_pos hkv]
      exact List.find?_cons_of_pos
        (p := fun kv : String × String => kv.1 == n) _ (by simp)
    · have h' : attrs.any (fun kv => kv.1 == n) = true := by
        rcases h with h | h
        · exact absurd h hkv
        · exact h
      rw [List.map_cons, if_neg hkv,
        List.find?_cons_of_neg
          (p := fun kv : String × String => kv.1 == n) _ hkv]
      exact ih h'

theorem find?_map_update_other (attrs : List (String × String))
    (n v m : String) (hm : m ≠ n) :
    (attrs.map (fun kv => if kv.1 == n then (n, v) else kv)).find?
        (fun kv => kv.1 == m)
      = attrs.find? (fun kv => kv.1 == m) := by
  have hnm : ¬ (n = m) := fun h => hm h.symm
  induction attrs with
  | nil => rfl
  | cons kv attrs ih =>
    by_cases hkv : (kv.1 == n) = true
    · have hk : kv.1 = n := eq_of_beq hkv
      rw [List.map_cons, if_pos hkv,
        List.find?_cons_of_neg
          (p := fun kv : String × String => kv.1 == m) _
          (show ¬ (((n, v).1 == m) = true) by simp [hnm]),
        List.find?_cons_of_neg
          (p := fun kv : String × String => kv.1 == m) _
          (show ¬ ((kv.1 == m) = true) by simp [hk, hnm]),
        ih]
    · by_cases hkm : (kv.1 == m) = true
      · rw [List.map_cons, if_neg hkv,
          List.find?_cons_of_pos
            (p := fun kv : String × String => kv.1 == m) _ hkm,
          List.find?_cons_of_pos
            (p := fun kv : String × String => kv.1 == m) _ hkm]
      · rw [List.map_cons, if_neg hkv,
          List.find?_cons_of_neg
            (p := fun kv : String × String => kv.1 == m) _ hkm,
          List.find?_cons_of_neg
            (p := fun kv : String × String => kv.1 == m) _ hkm,
          ih]

theorem find?_append_single_same (attrs : List (String × String))
    (n v : String) (h : attrs.any (fun kv => kv.1 == n) = false) :
    (attrs ++ [(n, v)]).find? (fun kv => kv.1 == n) = some (n, v) := by
  induction attrs with
  | nil =>
    exact List.find?_cons_of_pos
      (p := fun kv : String × String => kv.1 == n) _ (by simp)
  | cons kv attrs ih =>
    rw [List.any_cons, Bool.or_eq_false_iff] at h
    rw [List.cons_append,
      List.find?_cons_of_neg
        (p := fun kv : String × String => kv.1 == n) _
        (show ¬ ((kv.1 == n) = true) by simp [h.1])]
    exact ih h.2

theorem find?_append_single_other (attrs : List (String × String))
    (n v m : String) (hm : m ≠ n) :
    (attrs ++ [(n, v)]).find? (fun kv => kv.1 == m)
      = attrs.find? (fun kv => kv.1 == m) := by
  have hnm : ¬ (n = m) := fun h => hm h.symm
  induction attrs with
  | nil =>
    rw [List.nil_append,
      List.find?_cons_of_neg
        (p := fun kv : String × String => kv.1 == m) _
        (show ¬ (((n, v).1 == m) = true) by simp [hnm])]
  | cons kv attrs ih =>
    by_cases hkm : (kv.1 == m) = true
    · rw [List.cons_append,
        List.find?_cons_of_pos
          (p := fun kv : String × String => kv.1 == m) _ hkm,
        List.find?_cons_of_pos
          (p := fun kv : String × String => kv.1 == m) _ hkm]
    · rw [List.cons_append,
        List.find?_cons_of_neg
          (p := fun kv : String × String => kv.1 == m) _ hkm,
        List.find?_cons_of_neg
          (p := fun kv : String × String => kv.1 == m) _ hkm,
        ih]

theorem getAttribute_setAttribute_same (e : XmlElement) (n v : String) :
    (e.setAttribute n v).getAttribute n = v := by
  unfold XmlElement.setAttribute XmlElement.getAttribute
  cases h : e.attrs.any (fun kv => kv.1 == n) with
  | true =>
    rw [if_pos (by simp [h])]
    dsimp only
    rw [find?_map_update_same e.attrs n v h]
  | false =>
    rw [if_neg (by simp [h])]
    dsimp only
    rw [find?_append_single_same e.attrs n v h]

theorem getAttribute_setAttribute_other (e : XmlElement) (n v m : String)
    (hm : m ≠ n) :
    (e.setAttribute n v).getAttribute m = e.getAttribute m := by
  unfold XmlElement.setAttribute XmlElement.getAttribute
  cases h : e.attrs.any (fun kv => kv.1 == n) with
  | true =>
    rw [if_pos (by simp [h])]
    dsimp only
    rw [find?_map_update_other e.attrs n v m hm]
  | false =>
    rw [if_neg (by simp [h])]
    dsimp only
    rw [find?_append_single_other e.attrs n v m hm]

theorem tag_setAttribute (e : XmlElement) (n v : String) :
    (e.setAttribute n v).tag = e.tag := by
  unfold XmlElement.setAttribute
  split <;> rfl

theorem children_setAttribute (e : XmlElement) (n v : String) :
    (e.setAttribute n v).children = e.children := by
  unfold XmlElement.setAttribute
  split <;> rfl

/-- Claim C5: for an SVG whose parse yields exactly one `svg` element
carrying a `viewBox` attribute, the size patch with requested size
`(W, H)` succeeds and returns that element with explicit
`width="<W>px"` and `height="<H>px"` attributes set to the requested
size (overriding any viewBox-derived size), the tag, children and all
other attributes unchanged. -/
theorem svg_size_patch_sets_requested_size (e : XmlElement) (W H : Int)
    (_hvb : e.attrs.any (fun kv => kv.1 == "viewBox") = true) :
    ∃ e', fix_gnuplot_svg_size [e] (some (W, H)) = .ok e'
      ∧ e'.getAttribute "width" = toString W ++ "px"
      ∧ e'.getAttribute "height" = toString H ++ "px"
      ∧ e'.tag = e.tag ∧ e'.children = e.children
      ∧ ∀ name, name ≠ "width" → name ≠ "height" →
          e'.getAttribute name = e.getAttribute name := by
  refine ⟨(e.setAttribute "width" (toString W ++ "px")).setAttribute
      "height" (toString H ++ "px"), rfl, ?_, ?_, ?_, ?_, ?_⟩
  · rw [getAttribute_setAttribute_other _ _ _ _ (by decide)]
    exact getAttribute_setAttribute_same e _ _
  · exact getAttribute_setAttribute_same _ _ _
  · rw [tag_setAttribute, tag_setAttribute]
  · rw [children_setAttribute, children_setAttribute]
  · intro name hw hh
    rw [getAttribute_setAttribute_other _ _ _ _ hh,
      getAttribute_setAttribute_other _ _ _ _ hw]

/-- The claim's example element: one `svg` element with
`viewBox="0 0 100 50"`. -/
def sampleSvgElement : XmlElement :=
  { tag := "svg"
    attrs := [("viewBox", "0 0 100 50")]
    children := "<g></g>" }

/-- Witness for `svg_size_patch_sets_requested_size`: viewBox
`0 0 100 50` with requested size `(400, 240)`. -/
theorem svg_size_patch_sets_requested_size_witness :
    sampleSvgElement.attrs.any (fun kv => kv.1 == "viewBox") = true
    ∧ ∃ e', fix_gnuplot_svg_size [sampleSvgElement] (some (400, 240)) = .ok e'
      ∧ e'.getAttribute "width" = toString (400 : Int) ++ "px"
      ∧ e'.getAttribute "height" = toString (240 : Int) ++ "px"
      ∧ e'.tag = sampleSvgElement.tag
      ∧ e'.children = sampleSvgElement.children
      ∧ ∀ name, name ≠ "width" → name ≠ "height" →
          e'.getAttribute name = sampleSvgElement.getAttribute name :=
  ⟨by decide,
    svg_size_patch_sets_requested_size sampleSvgElement 400 240 (by decide)⟩

/-! ## Event classification -/

def isPublishTextEv : Event → Bool
  | .publishText _ _ => true
  | _ => false

def isConvertEv : Event → Bool
  | .convertPngToJpg => true
  | .convertPdfToSvg => true
  | _ => false

def isReadImageEv : Event → Bool
  | .readImageFile _ => true
  | _ => false

def isPublishImageEv : Event → Bool
  | .publishImage _ _ _ _ => true
  | _ => false

/-- The stderr reporting of `_convert_tikz_latex` on failure is a single
print. -/
theorem convertTikzLatexEvents_of_fail (w : World)
    (hfail : convertTikzLatexOk w = false) :
    ∃ msg, convertTikzLatexEvents w = [.printStderr msg] := by
  unfold convertTikzLatexEvents
  unfold convertTikzLatexOk at hfail
  cases hl : w.latexLaunches with
  | false => exact ⟨"LaTeX execution failed", by simp⟩
  | true =>
    rw [hl, Bool.true_and] at hfail
    exact ⟨"LaTeX terminated with signal", by simp [hfail]⟩

/-- Claim C1, amended: when compilation fails AND `tikz.log` exists with
non-empty contents, the pipeline publishes exactly one output — the log
text as `text/plain` — and performs no format conversion, no image
read, and no image publishing.  (When the log is missing or empty the
code does NOT short-circuit; see the counterexample.) -/
theorem latex_failure_nonempty_log_publishes_only_log (r : TikzRunner)
    (w : World) (log : String)
    (hdry : r.dry_run = false)
    (hfail : convertTikzLatexOk w = false)
    (hlog : w.logContents = some log)
    (hne : log.isEmpty = false) :
    (r.run w).1 = .ok ()
    ∧ (r.run w).2.filter isPublishTextEv
        = [.publishText "TikZMagic.Tikz" log]
    ∧ (r.run w).2.filter isConvertEv = []
    ∧ (r.run w).2.filter isReadImageEv = []
    ∧ (r.run w).2.filter isPublishImageEv = [] := by
  obtain ⟨msg, hCE⟩ := convertTikzLatexEvents_of_fail w hfail
  have hrl : run_latex w r.compile_tikz_template
      = (some log, [.writeTexFile r.compile_tikz_template, .runPdflatex]
          ++ [.printStderr msg]) := by
    unfold run_latex readTikzLog
    rw [hfail, hlog, hCE]
    simp
  have hbody : r.generatePlotsBody w r.compile_tikz_template
      = (.ok [], ([.writeTexFile r.compile_tikz_template, .runPdflatex]
          ++ [.printStderr msg])
          ++ [.publishText "TikZMagic.Tikz" log]) := by
    unfold TikzRunner.generatePlotsBody
    rw [hrl]
    simp [truthyStr, hne]
  have hgp : r.generate_plots w r.compile_tikz_template
      = (.ok [], .mkTempdir
          :: (([.writeTexFile r.compile_tikz_template, .runPdflatex]
              ++ [.printStderr msg])
            ++ [.publishText "TikZMagic.Tikz" log]) ++ [.rmTempdir]) := by
    unfold TikzRunner.generate_plots
    rw [hbody]
  have hrun : r.run w
      = (.ok (), .mkTempdir
          :: (([.writeTexFile r.compile_tikz_template, .runPdflatex]
              ++ [.printStderr msg])
            ++ [.publishText "TikZMagic.Tikz" log]) ++ [.rmTempdir]) := by
    unfold TikzRunner.run TikzRunner.runAndDisplay
    rw [if_neg (by rw [hdry]; exact Bool.false_ne_true), hgp]
    simp
  rw [hrun]
  refine ⟨rfl, ?_, ?_, ?_, ?_⟩ <;>
    simp [List.filter_cons, List.filter_append, isPublishTextEv,
      isConvertEv, isReadImageEv, isPublishImageEv]

/-- A render request for jpg output. -/
def sampleRunnerJpg : TikzRunner := { sampleRunner with plot_format := "jpg" }

/-- An environment where the compiler fails and leaves no log file. -/
def sampleWorldFailNoLog : World :=
  { latexLaunches := true
    latexExitCode := 1
    logContents := none
    imageBytes := none
    svgElements := [] }

/-- Claim C1, counterexample: with a failed compilation and a MISSING
log file, the pipeline publishes no plain-text output at all and still
runs the jpg format conversion — contradicting the claim that one
sentinel log output is published and conversion is skipped. -/
theorem latex_failure_missing_log_cex :
    (sampleRunnerJpg.run sampleWorldFailNoLog).2.filter isPublishTextEv = []
    ∧ Event.convertPngToJpg
        ∈ (sampleRunnerJpg.run sampleWorldFailNoLog).2 := by
  refine ⟨by decide, by decide⟩

/-- An environment where the compiler fails and writes a log. -/
def sampleWorldFailWithLog : World :=
  { latexLaunches := true
    latexExitCode := 1
    logContents := some "! Undefined control sequence."
    imageBytes := none
    svgElements := [] }

/-- Witness for `latex_failure_nonempty_log_publishes_only_log`. -/
theorem latex_failure_nonempty_log_publishes_only_log_witness :
    sampleRunnerJpg.dry_run = false
    ∧ convertTikzLatexOk sampleWorldFailWithLog = false
    ∧ sampleWorldFailWithLog.logContents
        = some "! Undefined control sequence."
    ∧ ("! Undefined control sequence.").isEmpty = false
    ∧ ((sampleRunnerJpg.run sampleWorldFailWithLog).1 = .ok ()
      ∧ (sampleRunnerJpg.run sampleWorldFailWithLog).2.filter isPublishTextEv
          = [.publishText "TikZMagic.Tikz" "! Undefined control sequence."]
      ∧ (sampleRunnerJpg.run sampleWorldFailWithLog).2.filter isConvertEv = []
      ∧ (sampleRunnerJpg.run sampleWorldFailWithLog).2.filter isReadImageEv
          = []
      ∧ (sampleRunnerJpg.run sampleWorldFailWithLog).2.filter isPublishImageEv
          = []) :=
  ⟨by decide, by decide, by decide, by decide,
    latex_failure_nonempty_log_publishes_only_log sampleRunnerJpg
      sampleWorldFailWithLog "! Undefined control sequence."
      (by decide) (by decide) (by decide) (by decide)⟩

/-! ## The scratch-directory invariant (C8) -/

theorem convertTikzLatexEvents_no_tempdir (w : World) :
    ∀ e ∈ convertTikzLatexEvents w,
      e ≠ Event.mkTempdir ∧ e ≠ Event.rmTempdir := by
  intro e he
  unfold convertTikzLatexEvents at he
  split at he
  · split at he
    · cases he
    · simp at he
      subst he
      exact ⟨by simp, by simp⟩
  · simp at he
    subst he
    exact ⟨by simp, by simp⟩

theorem readTikzLog_no_tempdir (w : World) :
    ∀ e ∈ (readTikzLog w).2,
      e ≠ Event.mkTempdir ∧ e ≠ Event.rmTempdir := by
  intro e he
  unfold readTikzLog at he
  split at he
  · cases he
  · simp at he
    subst he
    exact ⟨by simp, by simp⟩

theorem run_latex_no_tempdir (w : World) (code : String) :
    ∀ e ∈ (run_latex w code).2,
      e ≠ Event.mkTempdir ∧ e ≠ Event.rmTempdir := by
  intro e he
  unfold run_latex at he
  split at he
  · rcases List.mem_append.mp he with h | h
    · simp at h
      rcases h with rfl | rfl
      · exact ⟨by simp, by simp⟩
      · exact ⟨by simp, by simp⟩
    · exact convertTikzLatexEvents_no_tempdir w e h
  · rcases List.mem_append.mp he with h | h
    · rcases List.mem_append.mp h with h' | h'
      · simp at h'
        rcases h' with rfl | rfl
        · exact ⟨by simp, by simp⟩
        · exact ⟨by simp, by simp⟩
      · exact convertTikzLatexEvents_no_tempdir w e h'
    · exact readTikzLog_no_tempdir w e h

theorem convertImgFormatEvents_no_tempdir (fmt : String) :
    ∀ e ∈ convertImgFormatEvents fmt,
      e ≠ Event.mkTempdir ∧ e ≠ Event.rmTempdir := by
  intro e he
  unfold convertImgFormatEvents at he
  split at he
  · simp at he
    subst he
    exact ⟨by simp, by simp⟩
  · split at he
    · simp at he
      subst he
      exact ⟨by simp, by simp⟩
    · cases he

theorem publishImagePart_no_tempdir (r : TikzRunner) (w : World) :
    ∀ e ∈ (r.publishImagePart w).2,
      e ≠ Event.mkTempdir ∧ e ≠ Event.rmTempdir := by
  intro e he
  unfold TikzRunner.publishImagePart at he
  split at he
  · simp at he
    subst he
    exact ⟨by simp, by simp⟩
  · split at he
    · split at he
      · simp at he
        subst he
        exact ⟨by simp, by simp⟩
      · simp at he
        subst he
        exact ⟨by simp, by simp⟩
    · simp at he
      subst he
      exact ⟨by simp, by simp⟩

theorem saveIfRequested_no_tempdir (r : TikzRunner) (w : World) :
    ∀ e ∈ (r.saveIfRequested w).2,
      e ≠ Event.mkTempdir ∧ e ≠ Event.rmTempdir := by
  intro e he
  unfold TikzRunner.saveIfRequested at he
  split at he
  · cases he
  · split at he
    · cases he
    · simp at he
      subst he
      exact ⟨by simp, by simp⟩

theorem generatePlotsBody_no_tempdir (r : TikzRunner) (w : World)
    (code : String) :
    ∀ e ∈ (r.generatePlotsBody w code).2,
      e ≠ Event.mkTempdir ∧ e ≠ Event.rmTempdir := by
  intro e he
  unfold TikzRunner.generatePlotsBody at he
  dsimp only at he
  split at he
  · rcases List.mem_append.mp he with h | h
    · exact run_latex_no_tempdir w code e h
    · simp at h
      subst h
      exact ⟨by simp, by simp⟩
  · split at he
    · rcases List.mem_append.mp he with h | h
      · rcases List.mem_append.mp h with h' | h'
        · exact run_latex_no_tempdir w code e h'
        · exact convertImgFormatEvents_no_tempdir r.plot_format e h'
      · exact publishImagePart_no_tempdir r w e h
    · split at he
      · rcases List.mem_append.mp he with h | h
        · rcases List.mem_append.mp h with h' | h'
          · rcases List.mem_append.mp h' with h'' | h''
            · exact run_latex_no_tempdir w code e h''
            · exact convertImgFormatEvents_no_tempdir r.plot_format e h''
          · exact publishImagePart_no_tempdir r w e h'
        · exact saveIfRequested_no_tempdir r w e h
      · rcases List.mem_append.mp he with h | h
        · rcases List.mem_append.mp h with h' | h'
          · rcases List.mem_append.mp h' with h'' | h''
            · exact run_latex_no_tempdir w code e h''
            · exact convertImgFormatEvents_no_tempdir r.plot_format e h''
          · exact publishImagePart_no_tempdir r w e h'
        · exact saveIfRequested_no_tempdir r w e h

/-- Claim C8: for every non-dry-run request, in every environment, the
event trace is exactly one scratch-directory creation, then a body that
never touches the scratch directory lifecycle, then its removal —
followed only by display publications.  The removal happens on every
exit path (success, compilation failure, conversion failure, missing
image, and even when an exception escapes). -/
theorem tempdir_removed_on_all_paths (r : TikzRunner) (w : World)
    (hdry : r.dry_run = false) :
    ∃ body pubs,
      (r.run w).2 = .mkTempdir :: (body ++ [.rmTempdir]) ++ pubs
      ∧ (∀ e ∈ body, e ≠ Event.mkTempdir ∧ e ≠ Event.rmTempdir)
      ∧ (∀ e ∈ pubs, isPublishImageEv e = true) := by
  unfold TikzRunner.run TikzRunner.runAndDisplay
  rw [if_neg (by rw [hdry]; exact Bool.false_ne_true)]
  cases hres : (r.generate_plots w r.compile_tikz_template).1 with
  | error err =>
    refine ⟨(r.generatePlotsBody w r.compile_tikz_template).2, [], ?_,
      generatePlotsBody_no_tempdir r w _, by simp⟩
    unfold TikzRunner.generate_plots
    simp
  | ok dd =>
    refine ⟨(r.generatePlotsBody w r.compile_tikz_template).2,
      dd.map (fun entry =>
        .publishImage entry.1 entry.2.1 entry.2.2 (r.plot_format = "svg")),
      ?_, generatePlotsBody_no_tempdir r w _, ?_⟩
    · unfold TikzRunner.generate_plots
      simp
    · intro e he
      rw [List.mem_map] at he
      obtain ⟨entry, _, rfl⟩ := he
      rfl

/-- Witness for `tempdir_removed_on_all_paths` at the sample request in
the all-success environment. -/
theorem tempdir_removed_on_all_paths_witness :
    sampleRunner.dry_run = false
    ∧ ∃ body pubs,
        (sampleRunner.run sampleWorldOk).2
          = .mkTempdir :: (body ++ [.rmTempdir]) ++ pubs
        ∧ (∀ e ∈ body, e ≠ Event.mkTempdir ∧ e ≠ Event.rmTempdir)
        ∧ (∀ e ∈ pubs, isPublishImageEv e = true) :=
  ⟨by decide,
    tempdir_removed_on_all_paths sampleRunner sampleWorldOk (by decide)⟩

theorem convertTikzLatexEvents_of_ok (w : World)
    (hok : convertTikzLatexOk w = true) :
    convertTikzLatexEvents w = [] := by
  unfold convertTikzLatexOk at hok
  rw [Bool.and_eq_true] at hok
  unfold convertTikzLatexEvents
  simp [hok.1, hok.2]

theorem filter_convertImgFormatEvents_eq_nil (p : Event → Bool)
    (fmt : String)
    (h1 : p .convertPngToJpg = false) (h2 : p .convertPdfToSvg = false) :
    (convertImgFormatEvents fmt).filter p = [] := by
  unfold convertImgFormatEvents
  split
  · simp [h1]
  · split
    · simp [h2]
    · rfl

/-- Claim C10: when a save path is requested, compilation succeeded, but
the expected image file `tikz.<format>` is absent, the save step's
`shutil.copy` raises an uncaught file-not-found error that propagates
out of the render operation — while the display path handles the same
missing file by printing `No image generated.` and publishing nothing —
and the scratch directory is still removed. -/
theorem save_missing_image_raises (r : TikzRunner) (w : World)
    (dst : String)
    (hdry : r.dry_run = false)
    (hok : convertTikzLatexOk w = true)
    (himg : w.imageBytes = none)
    (hsave : r.img_save_path = some dst) :
    (r.run w).1 = .error .fileError
    ∧ Event.printStderr "No image generated." ∈ (r.run w).2
    ∧ (r.run w).2.filter isPublishImageEv = []
    ∧ (r.run w).2.filter isPublishTextEv = []
    ∧ Event.rmTempdir ∈ (r.run w).2 := by
  have hCE := convertTikzLatexEvents_of_ok w hok
  have hrl : run_latex w r.compile_tikz_template
      = (none, [.writeTexFile r.compile_tikz_template, .runPdflatex]) := by
    unfold run_latex
    rw [if_pos (by rw [hok])]
    rw [hCE, List.append_nil]
  have hpub : r.publishImagePart w
      = (.ok none, [.printStderr "No image generated."]) := by
    unfold TikzRunner.publishImagePart
    rw [himg]
  have hsv : r.saveIfRequested w = (.error .fileError, []) := by
    unfold TikzRunner.saveIfRequested
    rw [hsave, himg]
  have hbody : r.generatePlotsBody w r.compile_tikz_template
      = (.error .fileError,
         [.writeTexFile r.compile_tikz_template, .runPdflatex]
           ++ convertImgFormatEvents r.plot_format
           ++ [.printStderr "No image generated."] ++ []) := by
    unfold TikzRunner.generatePlotsBody
    rw [hrl, hpub, hsv]
    simp [truthyStr]
  have hP : (convertImgFormatEvents r.plot_format).filter isPublishImageEv
      = [] := filter_convertImgFormatEvents_eq_nil _ _ rfl rfl
  have hT : (convertImgFormatEvents r.plot_format).filter isPublishTextEv
      = [] := filter_convertImgFormatEvents_eq_nil _ _ rfl rfl
  refine ⟨?_, ?_, ?_, ?_, ?_⟩ <;>
    simp [TikzRunner.run, hdry, TikzRunner.runAndDisplay,
      TikzRunner.generate_plots, hbody, List.filter_append, List.filter_cons,
      isPublishImageEv, isPublishTextEv, hP, hT]

/-- A request that asks for a saved copy. -/
def sampleRunnerSave : TikzRunner :=
  { sampleRunner with img_save_path := some "out.png" }

/-- An environment where the compiler succeeds but no image file
appears (e.g. a silent converter failure). -/
def sampleWorldNoImage : World :=
  { latexLaunches := true
    latexExitCode := 0
    logContents := none
    imageBytes := none
    svgElements := [] }

/-- Witness for `save_missing_image_raises`. -/
theorem save_missing_image_raises_witness :
    sampleRunnerSave.dry_run = false
    ∧ convertTikzLatexOk sampleWorldNoImage = true
    ∧ sampleWorldNoImage.imageBytes = none
    ∧ sampleRunnerSave.img_save_path = some "out.png"
    ∧ ((sampleRunnerSave.run sampleWorldNoImage).1 = .error .fileError
      ∧ Event.printStderr "No image generated."
          ∈ (sampleRunnerSave.run sampleWorldNoImage).2
      ∧ (sampleRunnerSave.run sampleWorldNoImage).2.filter isPublishImageEv
          = []
      ∧ (sampleRunnerSave.run sampleWorldNoImage).2.filter isPublishTextEv
          = []
      ∧ Event.rmTempdir ∈ (sampleRunnerSave.run sampleWorldNoImage).2) :=
  ⟨by decide, by decide, by decide, by decide,
    save_missing_image_raises sampleRunnerSave sampleWorldNoImage "out.png"
      (by decide) (by decide) (by decide) (by decide)⟩

/-- When the parsed SVG does not contain exactly one `svg` element, the
size patch raises `ValueError`. -/
theorem fix_gnuplot_svg_size_error_of_not_single
    (l : List XmlElement) (size : Option (Int × Int))
    (h : l.length ≠ 1) :
    fix_gnuplot_svg_size l size = .error .valueError := by
  match l with
  | [] => rfl
  | [x] => exact absurd rfl h
  | x :: y :: t => rfl

/-- Claim C6: for an SVG whose parse does not yield exactly one `svg`
element (zero, or more than one), the publishing step's size patch
raises an error that propagates out of the whole render operation — the
run ends in `ValueError` and publishes nothing — rather than returning
a result. -/
theorem svg_not_single_element_errors (r : TikzRunner) (w : World)
    (bytes : String)
    (hdry : r.dry_run = false)
    (hfmt : r.plot_format = "svg")
    (hok : convertTikzLatexOk w = true)
    (himg : w.imageBytes = some bytes)
    (hsvg : w.svgElements.length ≠ 1) :
    (r.run w).1 = .error .valueError
    ∧ (r.run w).2.filter isPublishImageEv = [] := by
  have hCE := convertTikzLatexEvents_of_ok w hok
  have hrl : run_latex w r.compile_tikz_template
      = (none, [.writeTexFile r.compile_tikz_template, .runPdflatex]) := by
    unfold run_latex
    rw [if_pos (by rw [hok])]
    rw [hCE, List.append_nil]
  have hpub : r.publishImagePart w
      = (.error .valueError, [.readImageFile bytes]) := by
    unfold TikzRunner.publishImagePart
    rw [himg]
    simp [hfmt, fix_gnuplot_svg_size_error_of_not_single _ _ hsvg]
  have hbody : r.generatePlotsBody w r.compile_tikz_template
      = (.error .valueError,
         [.writeTexFile r.compile_tikz_template, .runPdflatex]
           ++ convertImgFormatEvents r.plot_format
           ++ [.readImageFile bytes]) := by
    unfold TikzRunner.generatePlotsBody
    rw [hrl, hpub]
    simp [truthyStr]
  have hP : (convertImgFormatEvents r.plot_format).filter isPublishImageEv
      = [] := filter_convertImgFormatEvents_eq_nil _ _ rfl rfl
  refine ⟨?_, ?_⟩ <;>
    simp [TikzRunner.run, hdry, TikzRunner.runAndDisplay,
      TikzRunner.generate_plots, hbody, List.filter_append, List.filter_cons,
      isPublishImageEv, hP]

/-- An environment whose produced SVG parses to TWO `svg` elements. -/
def sampleWorldTwoSvg : World :=
  { latexLaunches := true
    latexExitCode := 0
    logContents := none
    imageBytes := some "<svg></svg><svg></svg>"
    svgElements := [sampleSvgElement, sampleSvgElement] }

/-- Witness for `svg_not_single_element_errors` (two svg elements). -/
theorem svg_not_single_element_errors_witness :
    sampleInitRunner.dry_run = false
    ∧ sampleInitRunner.plot_format = "svg"
    ∧ convertTikzLatexOk sampleWorldTwoSvg = true
    ∧ sampleWorldTwoSvg.imageBytes = some "<svg></svg><svg></svg>"
    ∧ sampleWorldTwoSvg.svgElements.length ≠ 1
    ∧ ((sampleInitRunner.run sampleWorldTwoSvg).1 = .error .valueError
      ∧ (sampleInitRunner.run sampleWorldTwoSvg).2.filter isPublishImageEv
          = []) :=
  ⟨by decide, by decide, by decide, by decide, by decide,
    svg_not_single_element_errors sampleInitRunner sampleWorldTwoSvg
      "<svg></svg><svg></svg>"
      (by decide) (by decide) (by decide) (by decide) (by decide)⟩

end Tikzmagic
